import Mathlib

/-!
Shallow embedding of the conversational-memory service and proofs about it.

The embedding follows the source layout:
* `services/memory_service.py` — `find_similar_memories`, `update_importance`,
  `prune_memories`, `remember_content`;
* `services/conversation_service.py` — `add_conversation_message`, `search_memory`
  (hybrid mode post-filtering and the full-text-only fallback pipeline);
* `_Workshop/solutions/database/models.py` — the `Message` model with its validation.

Numeric document fields are modelled as rationals.  The document store and the
external AI capabilities (embedding generation, text generation, the store-side
ranking of vector / full-text search) are external collaborators; their outputs
enter the functions as explicit oracle records.  Configuration constants that live
in `config.py` (not among the sources) are passed as parameters:
`REINFORCEMENT_FACTOR` (spec: > 1), `DECAY_FACTOR` (spec: < 1),
`SIMILARITY_THRESHOLD`, `MAX_DEPTH`.
-/

set_option maxHeartbeats 1000000
set_option maxRecDepth 16000

/-- Python `str.strip()`: remove whitespace from both ends of a string. -/
def pyStrip (s : String) : String :=
  ⟨((s.data.dropWhile Char.isWhitespace).reverse.dropWhile Char.isWhitespace).reverse⟩

/-- Python `str.lower()`: lowercase every character. -/
def pyLower (s : String) : String :=
  ⟨s.data.map Char.toLower⟩

/-- Python `s[:n]`: the first `n` characters of a string. -/
def pyTake (s : String) (n : Nat) : String :=
  ⟨s.data.take n⟩

/-- A stored memory node document (collection `memory_nodes`). -/
structure MemoryNode where
  id : Nat
  user_id : String
  content : String
  summary : String
  importance : ℚ
  access_count : Nat
  timestamp : Nat
  last_accessed : Nat
  embeddings : List ℚ
  deriving DecidableEq

/-- `collection.update_one({"_id": id}, {"$set": ...})`: rewrite the first document
whose id matches, leave everything else in place. -/
def update_one (id : Nat) (f : MemoryNode → MemoryNode) : List MemoryNode → List MemoryNode
  | [] => []
  | n :: rest => if n.id = id then f n :: rest else n :: update_one id f rest

/-- `collection.delete_one({"_id": id})`: remove the first document whose id matches. -/
def delete_one (id : Nat) : List MemoryNode → List MemoryNode
  | [] => []
  | n :: rest => if n.id = id then rest else n :: delete_one id rest

/-- A document produced by the `$vectorSearch` aggregation of `find_similar_memories`
(after the `$addFields`/`$project` stages): the projected node fields together with
the store-computed `similarity` and `effective_importance` scores. -/
structure SearchDoc where
  id : Nat
  content : String
  summary : String
  importance : ℚ
  effective_importance : ℚ
  similarity : ℚ
  access_count : Nat
  timestamp : Nat
  embeddings : List ℚ
  deriving DecidableEq

/-- The sort key of the post-filter re-ranking in `find_similar_memories`:
`(x.get("effective_importance") or 0) * (x.get("similarity") or 0)`. -/
def rankScore (d : SearchDoc) : ℚ :=
  d.effective_importance * d.similarity

/-- The `$project` stage computes
`effective_importance = importance * (1 + ln(access_count + 1))` inside the store
(`memory_service.py` lines 125–130); this is its exact real-valued expression. -/
noncomputable def project_effective_importance (importance : ℚ) (access_count : Nat) : ℝ :=
  (importance : ℝ) * (1 + Real.log ((access_count : ℝ) + 1))

/-- The parameters of the `$vectorSearch` request issued by `find_similar_memories`
(`memory_service.py` lines 106–116).  The index name comes from `config.py` and is
irrelevant here, so it is not recorded. -/
structure VectorSearchRequest where
  path : String
  numCandidates : Nat
  limit : Nat
  filter_user_id : String
  deriving DecidableEq

/-- The request `find_similar_memories` sends to the store: `limit` is `top_n * 2`
("Get more candidates for filtering") and the filter is the lowercased user id. -/
def find_similar_request (user_id : String) (top_n : Nat) : VectorSearchRequest :=
  { path := "embeddings", numCandidates := 100, limit := top_n * 2,
    filter_user_id := pyLower user_id }

/-- Python-side post-processing of `find_similar_memories` on the raw store response:
keep candidates with `similarity >= minimum_similarity`, re-sort descending by
`effective_importance * similarity`, truncate to `top_n`. -/
def find_similar_memories (top_n : Nat) (minimum_similarity : ℚ) (raw : List SearchDoc) :
    List SearchDoc :=
  (((raw.filter fun d => minimum_similarity ≤ d.similarity).insertionSort
      fun a b => rankScore b ≤ rankScore a).take top_n)

instance : IsTotal SearchDoc fun a b => rankScore b ≤ rankScore a :=
  ⟨fun a b => le_total (rankScore b) (rankScore a)⟩

instance : IsTrans SearchDoc fun a b => rankScore b ≤ rankScore a :=
  ⟨fun _ _ _ h₁ h₂ => le_trans h₂ h₁⟩

/-- A sample store response document used by concrete witnesses: `access_count = 0`,
so its store-computed effective importance equals its importance. -/
def demoDoc : SearchDoc :=
  { id := 1, content := "c", summary := "s", importance := 1/2,
    effective_importance := 1/2, similarity := 4/5, access_count := 0,
    timestamp := 0, embeddings := [1] }

/-- Dot product of two equal-length vectors (zip truncates, as Python `zip` does). -/
def dot (a b : List ℚ) : ℚ :=
  ((a.zip b).map fun p => p.1 * p.2).sum

/-- Modelled from the spec: `cosine_similarity` is imported from `utils/helpers.py`,
which is not among the sources.  Spec §4.1 defines it as `dot(a,b) / (‖a‖·‖b‖)`;
for the zero-magnitude edge case the spec allows returning 0.0, which is what real
division by zero yields here. -/
noncomputable def cosine_similarity (a b : List ℚ) : ℝ :=
  (dot a b : ℝ) / (Real.sqrt ((dot a a : ℚ) : ℝ) * Real.sqrt ((dot b b : ℚ) : ℝ))

section ClassicalBranches

open Classical

/-- `update_importance` (`memory_service.py` lines 177–196): for every node of the
user, reinforce (`importance * R`, `access_count + 1`) when the cosine similarity to
the new embedding exceeds `SIMILARITY_THRESHOLD`, otherwise decay (`importance * D`).
No clamping is applied. -/
noncomputable def update_importance (R D simT : ℚ) (user_id : String) (embedding : List ℚ)
    (store : List MemoryNode) : List MemoryNode :=
  store.map fun doc =>
    if doc.user_id = user_id then
      if (simT : ℝ) < cosine_similarity embedding doc.embeddings then
        { doc with importance := doc.importance * R, access_count := doc.access_count + 1 }
      else
        { doc with importance := doc.importance * D }
    else doc

/-- Delete each listed id in turn (`delete_one` per document of the prune cursor). -/
def delete_many : List Nat → List MemoryNode → List MemoryNode
  | [], store => store
  | i :: rest, store => delete_many rest (delete_one i store)

/-- `prune_memories` (`memory_service.py` lines 199–211): if the user's node count
exceeds `MAX_DEPTH`, delete the `count - MAX_DEPTH` lowest-importance nodes. -/
def prune_memories (maxDepth : Nat) (user_id : String) (store : List MemoryNode) :
    List MemoryNode :=
  let count := (store.filter fun n => n.user_id = user_id).length
  if maxDepth < count then
    let doomed := (((store.filter fun n => n.user_id = user_id).insertionSort
        fun a b : MemoryNode => a.importance ≤ b.importance).take (count - maxDepth))
    delete_many (doomed.map MemoryNode.id) store
  else store

/-- Value of a digit string, most significant first. -/
def digitsVal (l : List Char) : Nat :=
  l.foldl (fun n c => n * 10 + (c.toNat - 48)) 0

/-- Python `float(s)` on a string of digits and dots: fails on no digits or more
than one dot, otherwise integer part plus fractional part. -/
def parse_float_digits (l : List Char) : Option ℚ :=
  if ¬ l.any Char.isDigit then none
  else if l.count '.' = 0 then some (digitsVal l)
  else if l.count '.' = 1 then
    let ip := l.takeWhile fun c => c ≠ '.'
    let fp := (l.dropWhile fun c => c ≠ '.').drop 1
    some ((digitsVal ip : ℚ) + (digitsVal fp : ℚ) / (10 : ℚ) ^ fp.length)
  else none

/-- `float("".join(c for c in text if c.isdigit() or c == "."))` with failure as `none`. -/
def extract_rating (t : String) : Option ℚ :=
  parse_float_digits (t.toList.filter fun c => c.isDigit ∨ c = '.')

/-- The request body of a "remember" call. -/
structure RememberRequest where
  user_id : String
  content : String
  deriving DecidableEq

/-- The JSON result of `remember_content`, by branch. -/
inductive RememberResult where
  | rejected (message : String)
  | reinforced (message : String) (memory_id : Nat)
  | created (message : String) (memory_id : Nat) (importance : ℚ)
  deriving DecidableEq

/-- Oracle inputs of one `remember_content` run: the generated embedding, the two raw
vector-search responses, the Bedrock text responses (`none` = unavailable), the id
the store assigns on insert, and the current time. -/
structure RememberOracle where
  embeddings : List ℚ
  raw1 : List SearchDoc
  importance_text : Option String
  summary_text : Option String
  new_id : Nat
  now : Nat
  raw2 : List SearchDoc
  combined_text : Option String
  merged_summary_text : Option String

/-- A sample stored node used by concrete witnesses. -/
def demoNode : MemoryNode :=
  { id := 7, user_id := "u", content := "c", summary := "s", importance := 1/2,
    access_count := 2, timestamp := 0, last_accessed := 0, embeddings := [1] }

/-- A raw search-response document reflecting `demoNode` with similarity 0.9. -/
def demoHighDoc : SearchDoc :=
  { id := 7, content := "c", summary := "s", importance := 1/2,
    effective_importance := 1/2, similarity := 9/10, access_count := 2,
    timestamp := 0, embeddings := [1] }

/-- An oracle whose first similarity query returns the near-duplicate `demoHighDoc`. -/
def demoOracle : RememberOracle :=
  { embeddings := [1], raw1 := [demoHighDoc], importance_text := none,
    summary_text := none, new_id := 9, now := 3, raw2 := [], combined_text := none,
    merged_summary_text := none }

/-- Element-wise average of two embeddings (`(a + b) / 2` over `zip`). -/
def avg2 (a b : List ℚ) : List ℚ :=
  (a.zip b).map fun p => (p.1 + p.2) / 2

/-- The combined content of a merge: the Bedrock synthesis when available, otherwise
the naive concatenation of the two texts. -/
def merged_content (o : RememberOracle) (new_memory : MemoryNode) (memory : SearchDoc) :
    String :=
  match o.combined_text with
  | some t => t
  | none => new_memory.content ++ "\n\n" ++ memory.content

/-- The regenerated summary of a merge: the Bedrock summary when available,
otherwise the first 100 characters of the combined content plus an ellipsis. -/
def merged_summary (o : RememberOracle) (new_memory : MemoryNode) (memory : SearchDoc) :
    String :=
  match o.merged_summary_text with
  | some s => s
  | none =>
    pyTake (merged_content o new_memory memory) 100
      ++ if 100 < (merged_content o new_memory memory).length then "..." else ""

/-- The `$set` document the merge writes onto the new node's id: combined content and
summary, `importance = max(both) * 1.1` (unclamped), `access_count = sum(both)`, and
the element-wise average of the embeddings. -/
def merge_update (o : RememberOracle) (new_memory : MemoryNode) (memory : SearchDoc)
    (embeddings : List ℚ) (n : MemoryNode) : MemoryNode :=
  { n with content := merged_content o new_memory memory,
           summary := merged_summary o new_memory memory,
           importance := max new_memory.importance memory.importance * (11/10),
           access_count := new_memory.access_count + memory.access_count,
           embeddings := avg2 embeddings memory.embeddings }

/-- The merge loop of `remember_content` (`memory_service.py` lines 300–355): scan
the second similarity query's results in order; at the first candidate with a
different id and `0.7 < similarity < 0.85`, write the combined fields onto the new
node's id, delete the candidate's document, and stop (`break`). -/
def merge_pass (o : RememberOracle) (new_memory : MemoryNode) (memory_id : Nat)
    (embeddings : List ℚ) : List SearchDoc → List MemoryNode → List MemoryNode
  | [], store => store
  | memory :: rest, store =>
    if memory.id ≠ memory_id ∧ (7/10 : ℚ) < memory.similarity ∧ memory.similarity < 17/20 then
      delete_one memory.id
        (update_one memory_id (merge_update o new_memory memory embeddings) store)
    else merge_pass o new_memory memory_id embeddings rest store

/-- The `$set` document of the reinforce branch: multiply importance by
`REINFORCEMENT_FACTOR`, increment access_count, refresh last_accessed — no clamping. -/
def reinforce_set (R : ℚ) (memory : SearchDoc) (now : Nat) (m : MemoryNode) : MemoryNode :=
  { m with importance := memory.importance * R,
           access_count := memory.access_count + 1,
           last_accessed := now }

/-- The importance score of the create branch: Bedrock's 1-10 rating parsed and
normalized into [0.1, 1.0], defaulting to 0.5 on parse failure or unavailability. -/
def importance_score_of (o : RememberOracle) : ℚ :=
  match o.importance_text with
  | some t =>
    match extract_rating t with
    | some r => min (max (r / 10) (1/10)) 1
    | none => 1/2
  | none => 1/2

/-- The summary of the create branch: Bedrock's one-sentence summary, or the first
100 characters of the content plus an ellipsis when unavailable. -/
def summary_of (o : RememberOracle) (req : RememberRequest) : String :=
  match o.summary_text with
  | some s => s
  | none => pyTake req.content 100 ++ if 100 < req.content.length then "..." else ""

/-- The new memory node persisted by the create branch: `access_count = 0`, both
timestamps set to now. -/
def created_node (o : RememberOracle) (req : RememberRequest) : MemoryNode :=
  { id := o.new_id, user_id := pyLower req.user_id, content := req.content,
    summary := summary_of o req, importance := importance_score_of o,
    access_count := 0, timestamp := o.now, last_accessed := o.now,
    embeddings := o.embeddings }

/-- A stored node that moderately overlaps the new content of the merge witness. -/
def demoOldNode : MemoryNode :=
  { id := 3, user_id := "u", content := "old", summary := "os", importance := 1,
    access_count := 4, timestamp := 0, last_accessed := 0, embeddings := [1] }

/-- The just-created node of the merge witness, with importance already at the cap. -/
def demoNewNode : MemoryNode :=
  { id := 5, user_id := "u", content := "new", summary := "ns", importance := 1,
    access_count := 0, timestamp := 0, last_accessed := 0, embeddings := [1] }

/-- A raw search document reflecting `demoOldNode` with similarity 0.78, inside the
moderate-overlap merge band. -/
def demoMergeDoc : SearchDoc :=
  { id := 3, content := "old", summary := "os", importance := 1,
    effective_importance := 1, similarity := 39/50, access_count := 4,
    timestamp := 0, embeddings := [1] }

/-- An oracle whose second similarity query returns the moderate-overlap candidate. -/
def demoMergeOracle : RememberOracle :=
  { embeddings := [1], raw1 := [], importance_text := some "10", summary_text := none,
    new_id := 5, now := 0, raw2 := [demoMergeDoc], combined_text := none,
    merged_summary_text := none }

/-- A node at the importance cap whose embedding matches the new content exactly. -/
def capNode : MemoryNode :=
  { id := 1, user_id := "u", content := "k", summary := "ks", importance := 1,
    access_count := 0, timestamp := 0, last_accessed := 0, embeddings := [1] }

/-- A node at the importance floor, orthogonal to the new content. -/
def decayNode : MemoryNode :=
  { id := 2, user_id := "u", content := "d", summary := "ds", importance := 1/10,
    access_count := 0, timestamp := 0, last_accessed := 0, embeddings := [0] }

/-- An oracle with no similar candidates at all: the call takes the create branch
and then runs the global reinforcement/decay pass. -/
def plainOracle : RememberOracle :=
  { embeddings := [1], raw1 := [], importance_text := none, summary_text := none,
    new_id := 9, now := 0, raw2 := [], combined_text := none,
    merged_summary_text := none }

/-- `remember_content` (`memory_service.py` lines 214–368) as a state transformer on
the memory-node collection, parameterized by the config constants and the oracle. -/
noncomputable def remember_content (R D simT : ℚ) (maxDepth : Nat) (o : RememberOracle)
    (req : RememberRequest) (store : List MemoryNode) : RememberResult × List MemoryNode :=
  let user_id := pyLower req.user_id
  if pyStrip req.content = "" then
    (RememberResult.rejected "Cannot remember empty content", store)
  else
    let similar1 := find_similar_memories 3 (3/4) o.raw1
    match similar1.find? fun m => (17/20 : ℚ) < m.similarity with
    | some memory =>
      (RememberResult.reinforced "Reinforced existing memory" memory.id,
        update_one memory.id (reinforce_set R memory o.now) store)
    | none =>
      let new_memory := created_node o req
      let store1 := store ++ [new_memory]
      let similar2 := find_similar_memories 3 (3/4) o.raw2
      let store2 := merge_pass o new_memory o.new_id o.embeddings similar2 store1
      let store3 := update_importance R D simT user_id o.embeddings store2
      let store4 := prune_memories maxDepth user_id store3
      (RememberResult.created ("Remembered: " ++ new_memory.summary) o.new_id
        new_memory.importance, store4)

end ClassicalBranches

/-- The `type` field of a message (validated by FastAPI/Pydantic upstream). -/
inductive MessageType where
  | human
  | ai
  deriving DecidableEq

/-- The request body of the add-message endpoint (`MessageInput`). -/
structure MessageInput where
  user_id : String
  conversation_id : String
  type : MessageType
  text : String
  timestamp : Option String
  deriving DecidableEq

/-- Environment of message ingestion: the embedding capability (empty list =
unavailable), the ISO-timestamp parser, and the current time. -/
structure IngestEnv where
  gen_embedding : String → List ℚ
  parse_iso : String → Option Nat
  now : Nat

/-- The configured embedding dimension. -/
def EMBEDDING_DIM : Nat := 1536

/-- A validated `Message` (`_Workshop/solutions/database/models.py`). -/
structure Message where
  user_id : String
  conversation_id : String
  type : MessageType
  text : String
  timestamp : Nat
  embeddings : List ℚ
  deriving DecidableEq

/-- `Message.parse_timestamp`: parse an ISO timestamp if one is given (the empty
string is falsy in Python and means "absent"), else use the current time; a present
but malformed timestamp is a hard failure. -/
def parse_timestamp (env : IngestEnv) (timestamp : Option String) : Except String Nat :=
  match timestamp with
  | some s =>
    if s = "" then Except.ok env.now
    else
      match env.parse_iso s with
      | some t => Except.ok t
      | none => Except.error "Invalid timestamp format"
  | none => Except.ok env.now

/-- `Message.__init__` (`_Workshop/solutions/database/models.py` lines 16–49):
trim-and-validate `user_id`, `conversation_id`, `text`; parse the timestamp;
generate the embedding for the trimmed text; reject when the embedding is empty or
its length differs from 1536, naming the expected and actual lengths. -/
def mkMessage (env : IngestEnv) (input : MessageInput) : Except String Message :=
  let user_id := pyStrip input.user_id
  if user_id = "" then Except.error "user_id cannot be empty"
  else
    let conversation_id := pyStrip input.conversation_id
    if conversation_id = "" then Except.error "conversation_id cannot be empty"
    else
      let text := pyStrip input.text
      if text = "" then Except.error "Message text cannot be empty"
      else
        match parse_timestamp env input.timestamp with
        | Except.error e => Except.error e
        | Except.ok ts =>
          let embeddings := env.gen_embedding text
          if embeddings = [] ∨ embeddings.length ≠ EMBEDDING_DIM then
            Except.error
              ("Invalid embedding dimensions. Expected 1536, got " ++ toString embeddings.length)
          else
            Except.ok { user_id := user_id, conversation_id := conversation_id,
                        type := input.type, text := text, timestamp := ts,
                        embeddings := embeddings }

/-- Observable outcome of `add_conversation_message`: the HTTP-level response, the
message written to the conversation collection, and the request handed to the
Memory Consolidation Engine, when one was issued. -/
structure IngestOutcome where
  response : Except String String
  stored : Option Message
  memory_call : Option RememberRequest

/-- `add_conversation_message` (`conversation_service.py` lines 125–152): lowercase
the user id, validate and persist the message, then — for `type == human` with
`len(message_input.text) > 30` — invoke `remember_content` on the
conversation-id-prefixed text.  `memory_error` records whether that invocation
raised; the `except` block only logs, so the outcome never depends on it. -/
def add_conversation_message (env : IngestEnv) (memory_error : Bool)
    (message_input : MessageInput) : IngestOutcome :=
  let message_input := { message_input with user_id := pyLower message_input.user_id }
  match mkMessage env message_input with
  | Except.error e => { response := Except.error e, stored := none, memory_call := none }
  | Except.ok new_message =>
    let memory_call :=
      if message_input.type = MessageType.human ∧ 30 < message_input.text.length then
        some { user_id := message_input.user_id,
               content := "From conversation " ++ message_input.conversation_id ++ ": "
                 ++ message_input.text : RememberRequest }
      else none
    { response := Except.ok "Message added successfully", stored := some new_message,
      memory_call := memory_call }

/-- A conversation document as scored by the Atlas full-text `$search` stage. -/
structure ConvDoc where
  id : Nat
  user_id : String
  text : String
  type : String
  timestamp : Nat
  conversation_id : String
  embeddings : Option (List ℚ)
  score : ℚ
  deriving DecidableEq

/-- A document produced by the `hybrid_search` aggregation: per-modality normalized
scores and the blended `hybrid_score` (projected as `score`). -/
structure HybridDoc where
  id : Nat
  text : String
  type : String
  timestamp : Nat
  conversation_id : String
  fts_score : Option ℚ
  vs_score : Option ℚ
  score : ℚ
  deriving DecidableEq

/-- The `documents` field of a search response: the "No documents found" sentinel or
the enriched result list of the mode that ran. -/
inductive SearchDocuments where
  | none_found
  | fulltext (docs : List ConvDoc)
  | hybrid (docs : List HybridDoc)
  deriving DecidableEq

/-- The `search_metadata` object of a search response. -/
structure SearchMetadata where
  query : String
  total_results : Nat
  relevant_results : Nat
  minimum_score : ℚ
  search_type : String
  deriving DecidableEq

/-- A `search_memory` response. -/
structure SearchResponse where
  documents : SearchDocuments
  search_metadata : SearchMetadata
  deriving DecidableEq

/-- `MINIMUM_FULLTEXT_SCORE = 5.0` (`conversation_service.py` line 194). -/
def MINIMUM_FULLTEXT_SCORE : ℚ := 5

/-- `MINIMUM_HYBRID_SCORE = 0.70` (`conversation_service.py` line 270). -/
def MINIMUM_HYBRID_SCORE : ℚ := 7/10

/-- The final `$project` of the full-text fallback pipeline excludes `embeddings`. -/
def strip_embeddings (d : ConvDoc) : ConvDoc :=
  { d with embeddings := none }

/-- The deterministic tail of the full-text-only pipeline
(`conversation_service.py` lines 195–222), applied to the raw `$search` output:
`$match` on `user_id`, `$match score >= 5.0`, `$sort` descending, `$limit 10`, and
the embedding-stripping `$project`. -/
def fulltext_pipeline (user_id : String) (raw : List ConvDoc) : List ConvDoc :=
  (((((raw.filter fun d => d.user_id = user_id).filter
      fun d => MINIMUM_FULLTEXT_SCORE ≤ d.score).insertionSort
      fun a b : ConvDoc => b.score ≤ a.score).take 10).map strip_embeddings)

/-- Oracle inputs of one `search_memory` run: the query embedding (empty = Bedrock
unavailable), the raw full-text `$search` response, and the `hybrid_search`
aggregation result. -/
structure SearchOracle where
  vector_query : List ℚ
  fulltext_raw : List ConvDoc
  hybrid_docs : List HybridDoc

/-- `search_memory` (`conversation_service.py` lines 154–323): full-text-only
fallback when the query embedding is empty, otherwise hybrid search filtered by the
minimum hybrid score, with the "No documents found" sentinel when nothing survives. -/
def search_memory (o : SearchOracle) (user_id query : String) : SearchResponse :=
  let user_id := pyLower user_id
  if o.vector_query = [] then
    let results := fulltext_pipeline user_id o.fulltext_raw
    if results = [] then
      { documents := SearchDocuments.none_found,
        search_metadata :=
          { query := query, total_results := 0, relevant_results := 0,
            minimum_score := MINIMUM_FULLTEXT_SCORE, search_type := "atlas_fulltext_only" } }
    else
      { documents := SearchDocuments.fulltext results,
        search_metadata :=
          { query := query, total_results := results.length,
            relevant_results := results.length,
            minimum_score := MINIMUM_FULLTEXT_SCORE, search_type := "atlas_fulltext_only" } }
  else
    let documents := o.hybrid_docs
    let relevant_results := documents.filter fun d => MINIMUM_HYBRID_SCORE ≤ d.score
    if relevant_results = [] then
      { documents := SearchDocuments.none_found,
        search_metadata :=
          { query := query, total_results := documents.length, relevant_results := 0,
            minimum_score := MINIMUM_HYBRID_SCORE, search_type := "hybrid_vector_fulltext" } }
    else
      { documents := SearchDocuments.hybrid relevant_results,
        search_metadata :=
          { query := query, total_results := documents.length,
            relevant_results := relevant_results.length,
            minimum_score := MINIMUM_HYBRID_SCORE, search_type := "hybrid_vector_fulltext" } }

/-- The documents of a response as a hybrid-doc list (`[]` for the sentinel or the
full-text shape); used to say a hybrid doc does not appear in a response. -/
def SearchResponse.hybridDocs (r : SearchResponse) : List HybridDoc :=
  match r.documents with
  | SearchDocuments.hybrid docs => docs
  | _ => []

/-- The documents of a response as a full-text doc list (`[]` otherwise). -/
def SearchResponse.fulltextDocs (r : SearchResponse) : List ConvDoc :=
  match r.documents with
  | SearchDocuments.fulltext docs => docs
  | _ => []

/-! ### Helper lemmas -/

theorem fulltext_pipeline_subset {user_id : String} {raw : List ConvDoc} {d : ConvDoc}
    (hd : d ∈ fulltext_pipeline user_id raw) :
    MINIMUM_FULLTEXT_SCORE ≤ d.score ∧ d.embeddings = none := by
  unfold fulltext_pipeline at hd
  rcases List.mem_map.1 hd with ⟨e, he, rfl⟩
  have h1 := List.mem_of_mem_take he
  have h2 := (List.mem_insertionSort _).1 h1
  have h3 := List.mem_filter.1 h2
  refine ⟨?_, rfl⟩
  simpa [strip_embeddings] using of_decide_eq_true h3.2

theorem fulltext_pipeline_length_le (user_id : String) (raw : List ConvDoc) :
    (fulltext_pipeline user_id raw).length ≤ 10 := by
  unfold fulltext_pipeline
  simpa using List.length_take_le 10 _

/-- C9: a "remember" request whose content is empty after trimming is rejected with
the validation message and leaves the memory store untouched. -/
theorem remember_content_rejects_blank (R D simT : ℚ) (maxDepth : Nat)
    (o : RememberOracle) (req : RememberRequest) (store : List MemoryNode)
    (h : pyStrip req.content = "") :
    remember_content R D simT maxDepth o req store
      = (RememberResult.rejected "Cannot remember empty content", store) := by
  simp [remember_content, h]

/-- Witness for C9 at a whitespace-only request. -/
theorem remember_content_rejects_blank_witness :
    remember_content (6/5) (9/10) (3/4) 10
      { embeddings := [], raw1 := [], importance_text := none, summary_text := none,
        new_id := 0, now := 0, raw2 := [], combined_text := none,
        merged_summary_text := none }
      { user_id := "alice", content := "   " } []
      = (RememberResult.rejected "Cannot remember empty content", []) :=
  remember_content_rejects_blank (6/5) (9/10) (3/4) 10 _ _ _ (by decide)

/-- C7: in hybrid mode every candidate scoring below 0.70 is discarded, and when no
candidate survives the filter the response is the "No documents found" sentinel with
`relevant_results = 0` and the total candidate count in the metadata. -/
theorem search_memory_hybrid_threshold (o : SearchOracle) (user_id query : String)
    (hv : o.vector_query ≠ []) :
    (∀ d ∈ o.hybrid_docs, d.score < MINIMUM_HYBRID_SCORE →
        d ∉ (search_memory o user_id query).hybridDocs) ∧
    ((o.hybrid_docs.filter fun d => MINIMUM_HYBRID_SCORE ≤ d.score) = [] →
      (search_memory o user_id query).documents = SearchDocuments.none_found ∧
      (search_memory o user_id query).search_metadata.relevant_results = 0 ∧
      (search_memory o user_id query).search_metadata.total_results
        = o.hybrid_docs.length) := by
  by_cases hr : (o.hybrid_docs.filter fun d => MINIMUM_HYBRID_SCORE ≤ d.score) = []
  · have hresp : search_memory o user_id query
        = { documents := SearchDocuments.none_found,
            search_metadata :=
              { query := query, total_results := o.hybrid_docs.length,
                relevant_results := 0, minimum_score := MINIMUM_HYBRID_SCORE,
                search_type := "hybrid_vector_fulltext" } } := by
      simp [search_memory, hv, hr]
    refine ⟨?_, fun _ => ⟨by rw [hresp], by rw [hresp], by rw [hresp]⟩⟩
    intro d _ _
    rw [hresp]
    simp [SearchResponse.hybridDocs]
  · have hresp : search_memory o user_id query
        = { documents := SearchDocuments.hybrid
              (o.hybrid_docs.filter fun d => MINIMUM_HYBRID_SCORE ≤ d.score),
            search_metadata :=
              { query := query, total_results := o.hybrid_docs.length,
                relevant_results :=
                  (o.hybrid_docs.filter fun d => MINIMUM_HYBRID_SCORE ≤ d.score).length,
                minimum_score := MINIMUM_HYBRID_SCORE,
                search_type := "hybrid_vector_fulltext" } } := by
      simp [search_memory, hv, hr]
    refine ⟨?_, fun h => absurd h hr⟩
    intro d _ hlt hmem
    rw [hresp] at hmem
    simp only [SearchResponse.hybridDocs] at hmem
    have := (List.mem_filter.1 hmem).2
    exact absurd (of_decide_eq_true this) (not_le.2 hlt)

/-- Witness for C7: a single hybrid candidate scoring 0.60 is filtered out and the
sentinel response reports one total candidate but zero relevant ones. -/
theorem search_memory_hybrid_threshold_witness :
    (search_memory
        { vector_query := [1], fulltext_raw := [],
          hybrid_docs := [{ id := 0, text := "t", type := "human", timestamp := 0,
                            conversation_id := "c", fts_score := none, vs_score := none,
                            score := 3/5 }] } "U" "q").documents
      = SearchDocuments.none_found ∧
    (search_memory
        { vector_query := [1], fulltext_raw := [],
          hybrid_docs := [{ id := 0, text := "t", type := "human", timestamp := 0,
                            conversation_id := "c", fts_score := none, vs_score := none,
                            score := 3/5 }] } "U" "q").search_metadata.relevant_results = 0 ∧
    (search_memory
        { vector_query := [1], fulltext_raw := [],
          hybrid_docs := [{ id := 0, text := "t", type := "human", timestamp := 0,
                            conversation_id := "c", fts_score := none, vs_score := none,
                            score := 3/5 }] } "U" "q").search_metadata.total_results = 1 := by
  have h := search_memory_hybrid_threshold
    { vector_query := [1], fulltext_raw := [],
      hybrid_docs := [{ id := 0, text := "t", type := "human", timestamp := 0,
                        conversation_id := "c", fts_score := none, vs_score := none,
                        score := 3/5 }] } "U" "q" (by simp)
  have h2 := h.2 (by norm_num [List.filter_cons, MINIMUM_HYBRID_SCORE])
  exact ⟨h2.1, h2.2.1, h2.2.2⟩

/-- C8: with an empty query embedding, `search_memory` runs the full-text-only
pipeline — results filtered to scores at or above the minimum full-text threshold,
capped at 10, embeddings stripped — and tags the metadata with
`search_type = atlas_fulltext_only`. -/
theorem search_memory_fulltext_only (o : SearchOracle) (user_id query : String)
    (hv : o.vector_query = []) :
    (search_memory o user_id query).search_metadata.search_type = "atlas_fulltext_only" ∧
    (search_memory o user_id query).fulltextDocs
      = fulltext_pipeline (pyLower user_id) o.fulltext_raw ∧
    (search_memory o user_id query).fulltextDocs.length ≤ 10 ∧
    (∀ d ∈ (search_memory o user_id query).fulltextDocs,
        MINIMUM_FULLTEXT_SCORE ≤ d.score ∧ d.embeddings = none) := by
  by_cases hr : fulltext_pipeline (pyLower user_id) o.fulltext_raw = []
  · have hresp : search_memory o user_id query
        = { documents := SearchDocuments.none_found,
            search_metadata :=
              { query := query, total_results := 0, relevant_results := 0,
                minimum_score := MINIMUM_FULLTEXT_SCORE,
                search_type := "atlas_fulltext_only" } } := by
      simp [search_memory, hv, hr]
    rw [hresp]
    refine ⟨rfl, by simp [SearchResponse.fulltextDocs, hr], by simp [SearchResponse.fulltextDocs], ?_⟩
    simp [SearchResponse.fulltextDocs]
  · have hresp : search_memory o user_id query
        = { documents := SearchDocuments.fulltext
              (fulltext_pipeline (pyLower user_id) o.fulltext_raw),
            search_metadata :=
              { query := query,
                total_results := (fulltext_pipeline (pyLower user_id) o.fulltext_raw).length,
                relevant_results := (fulltext_pipeline (pyLower user_id) o.fulltext_raw).length,
                minimum_score := MINIMUM_FULLTEXT_SCORE,
                search_type := "atlas_fulltext_only" } } := by
      simp [search_memory, hv, hr]
    rw [hresp]
    refine ⟨rfl, rfl, ?_, ?_⟩
    · simpa [SearchResponse.fulltextDocs] using fulltext_pipeline_length_le (pyLower user_id) o.fulltext_raw
    · intro d hd
      exact fulltext_pipeline_subset (by simpa [SearchResponse.fulltextDocs] using hd)

/-- Witness for C8: Bedrock unavailable (empty query embedding) on a two-document
store response; the high-scoring document survives with its embedding stripped. -/
theorem search_memory_fulltext_only_witness :
    (search_memory
        { vector_query := [],
          fulltext_raw :=
            [{ id := 1, user_id := "u", text := "hi", type := "human", timestamp := 0,
               conversation_id := "c", embeddings := some [1], score := 7 },
             { id := 2, user_id := "u", text := "lo", type := "human", timestamp := 1,
               conversation_id := "c", embeddings := some [2], score := 2 }],
          hybrid_docs := [] } "U" "q").search_metadata.search_type
      = "atlas_fulltext_only" ∧
    (search_memory
        { vector_query := [],
          fulltext_raw :=
            [{ id := 1, user_id := "u", text := "hi", type := "human", timestamp := 0,
               conversation_id := "c", embeddings := some [1], score := 7 },
             { id := 2, user_id := "u", text := "lo", type := "human", timestamp := 1,
               conversation_id := "c", embeddings := some [2], score := 2 }],
          hybrid_docs := [] } "U" "q").fulltextDocs
      = fulltext_pipeline (pyLower "U")
          [{ id := 1, user_id := "u", text := "hi", type := "human", timestamp := 0,
             conversation_id := "c", embeddings := some [1], score := 7 },
           { id := 2, user_id := "u", text := "lo", type := "human", timestamp := 1,
             conversation_id := "c", embeddings := some [2], score := 2 }] := by
  have h := search_memory_fulltext_only
    { vector_query := [],
      fulltext_raw :=
        [{ id := 1, user_id := "u", text := "hi", type := "human", timestamp := 0,
           conversation_id := "c", embeddings := some [1], score := 7 },
         { id := 2, user_id := "u", text := "lo", type := "human", timestamp := 1,
           conversation_id := "c", embeddings := some [2], score := 2 }],
      hybrid_docs := [] } "U" "q" rfl
  exact ⟨h.1, h.2.1⟩

/-- C5 counterexample: an empty embedding is not accepted as degradation — with the
embedding capability returning the empty vector, `Message.__init__` rejects the
message with the dimension-mismatch error reporting actual length 0, so no message
is stored without an embedding. -/
theorem message_empty_embedding_rejected :
    mkMessage
      { gen_embedding := fun _ => [], parse_iso := fun _ => none, now := 5 }
      { user_id := "alice", conversation_id := "conv", type := MessageType.human,
        text := "Hello", timestamp := none }
      = Except.error "Invalid embedding dimensions. Expected 1536, got 0" := rfl

/-- C5 (amended): message ingestion rejects every embedding whose length differs from
the configured dimension — the empty embedding included, reported with actual length
0 — with a validation error naming the expected (1536) and actual lengths; only a
1536-length embedding is accepted. -/
theorem message_embedding_validation (env : IngestEnv) (input : MessageInput) (ts : Nat)
    (hu : ¬ pyStrip input.user_id = "") (hc : ¬ pyStrip input.conversation_id = "")
    (ht : ¬ pyStrip input.text = "")
    (hts : parse_timestamp env input.timestamp = Except.ok ts) :
    ((env.gen_embedding (pyStrip input.text)).length ≠ EMBEDDING_DIM →
      mkMessage env input
        = Except.error ("Invalid embedding dimensions. Expected 1536, got "
            ++ toString (env.gen_embedding (pyStrip input.text)).length)) ∧
    ((env.gen_embedding (pyStrip input.text)).length = EMBEDDING_DIM →
      mkMessage env input
        = Except.ok { user_id := pyStrip input.user_id,
                      conversation_id := pyStrip input.conversation_id,
                      type := input.type, text := pyStrip input.text, timestamp := ts,
                      embeddings := env.gen_embedding (pyStrip input.text) }) := by
  constructor
  · intro h
    simp only [mkMessage, if_neg hu, if_neg hc, if_neg ht, hts]
    rw [if_pos (Or.inr h)]
  · intro h
    have hne : ¬ (env.gen_embedding (pyStrip input.text) = []
        ∨ (env.gen_embedding (pyStrip input.text)).length ≠ EMBEDDING_DIM) := by
      rintro (h0 | hlen)
      · rw [h0] at h
        simp [EMBEDDING_DIM] at h
      · exact hlen h
    simp only [mkMessage, if_neg hu, if_neg hc, if_neg ht, hts]
    rw [if_neg hne]

/-- Witness for the amended C5: the spec's own example — a 128-length embedding is
rejected naming expected 1536 and actual 128. -/
theorem message_embedding_validation_witness :
    mkMessage
      { gen_embedding := fun _ => List.replicate 128 0, parse_iso := fun _ => none,
        now := 5 }
      { user_id := "alice", conversation_id := "conv", type := MessageType.human,
        text := "Hello", timestamp := none }
      = Except.error "Invalid embedding dimensions. Expected 1536, got 128" :=
  (message_embedding_validation
    { gen_embedding := fun _ => List.replicate 128 0, parse_iso := fun _ => none, now := 5 }
    { user_id := "alice", conversation_id := "conv", type := MessageType.human,
      text := "Hello", timestamp := none } 5
    (by decide) (by decide) (by decide) rfl).1 (by simp [EMBEDDING_DIM])

/-- C6 counterexample: the significance check uses the UNTRIMMED text length.  A
human message of 31 raw characters whose trimmed form has 21 characters still
triggers memory consolidation, refuting the "trimmed text length exceeds 30"
condition. -/
theorem add_message_untrimmed_length_cex :
    ((add_conversation_message
        { gen_embedding := fun _ => List.replicate 1536 0, parse_iso := fun _ => none,
          now := 0 } false
        { user_id := "Alice", conversation_id := "c1", type := MessageType.human,
          text := "          aaaaaaaaaaaaaaaaaaaaa", timestamp := none }).memory_call
      ≠ none) ∧
    (pyStrip "          aaaaaaaaaaaaaaaaaaaaa").length ≤ 30 := by
  decide

/-- C6 (amended): for a message that passes validation, the Memory Consolidation
Engine is invoked iff the type is human and the UNTRIMMED text length exceeds 30;
the invocation content is the conversation-id-prefixed raw text, and the response is
the success acknowledgement whether or not the invocation fails. -/
theorem add_message_memory_trigger (env : IngestEnv) (memory_error : Bool)
    (input : MessageInput) (m : Message)
    (hok : mkMessage env { input with user_id := pyLower input.user_id } = Except.ok m) :
    (add_conversation_message env memory_error input).memory_call
      = (if input.type = MessageType.human ∧ 30 < input.text.length
         then some { user_id := pyLower input.user_id,
                     content := "From conversation " ++ input.conversation_id ++ ": "
                       ++ input.text }
         else none) ∧
    (add_conversation_message env memory_error input).response
      = Except.ok "Message added successfully" ∧
    (add_conversation_message env memory_error input).stored = some m := by
  simp [add_conversation_message, hok]

/-- Witness for the amended C6: a 31-character human message is stored and triggers
a memory call on the raw text, prefixed with the conversation id. -/
theorem add_message_memory_trigger_witness :
    (add_conversation_message
        { gen_embedding := fun _ => List.replicate 1536 0, parse_iso := fun _ => none,
          now := 0 } true
        { user_id := "Alice", conversation_id := "c1", type := MessageType.human,
          text := "          aaaaaaaaaaaaaaaaaaaaa", timestamp := none }).memory_call
      = some { user_id := "alice",
               content := "From conversation c1:           aaaaaaaaaaaaaaaaaaaaa" } ∧
    (add_conversation_message
        { gen_embedding := fun _ => List.replicate 1536 0, parse_iso := fun _ => none,
          now := 0 } true
        { user_id := "Alice", conversation_id := "c1", type := MessageType.human,
          text := "          aaaaaaaaaaaaaaaaaaaaa", timestamp := none }).response
      = Except.ok "Message added successfully" := by
  have h := add_message_memory_trigger
    { gen_embedding := fun _ => List.replicate 1536 0, parse_iso := fun _ => none,
      now := 0 } true
    { user_id := "Alice", conversation_id := "c1", type := MessageType.human,
      text := "          aaaaaaaaaaaaaaaaaaaaa", timestamp := none } _ rfl
  exact ⟨h.1.trans (by decide), h.2.1⟩


theorem mem_find_similar_memories {top_n : Nat} {min_sim : ℚ} {raw : List SearchDoc}
    {d : SearchDoc} (hd : d ∈ find_similar_memories top_n min_sim raw) :
    d ∈ raw ∧ min_sim ≤ d.similarity := by
  unfold find_similar_memories at hd
  have h1 := (List.mem_insertionSort _).1 (List.mem_of_mem_take hd)
  have h2 := List.mem_filter.1 h1
  exact ⟨h2.1, of_decide_eq_true h2.2⟩

/-- C4: `find_similar_memories` requests `top_n * 2` raw candidates, discards every
candidate below `minimum_similarity`, sorts the survivors descending by
`effective_importance × similarity` (the store-computed effective importance being
`importance × (1 + ln(access_count + 1))`), and returns at most `top_n` results,
each with similarity at least `minimum_similarity`. -/
theorem find_similar_memories_contract (user_id : String) (top_n : Nat) (min_sim : ℚ)
    (raw : List SearchDoc)
    (hE : ∀ d ∈ raw, (d.effective_importance : ℝ)
        = project_effective_importance d.importance d.access_count) :
    (find_similar_request user_id top_n).limit = top_n * 2 ∧
    (find_similar_memories top_n min_sim raw).length
      = min top_n (raw.filter fun d => min_sim ≤ d.similarity).length ∧
    (∀ d ∈ find_similar_memories top_n min_sim raw, min_sim ≤ d.similarity) ∧
    (find_similar_memories top_n min_sim raw).Subperm
      (raw.filter fun d => min_sim ≤ d.similarity) ∧
    (find_similar_memories top_n min_sim raw).Sorted
      (fun a b => project_effective_importance b.importance b.access_count * (b.similarity : ℝ)
        ≤ project_effective_importance a.importance a.access_count * (a.similarity : ℝ)) := by
  have hperm : List.Perm
      ((raw.filter fun d => min_sim ≤ d.similarity).insertionSort
        fun a b => rankScore b ≤ rankScore a)
      (raw.filter fun d => min_sim ≤ d.similarity) :=
    List.perm_insertionSort _ _
  refine ⟨rfl, ?_, ?_, ?_, ?_⟩
  · unfold find_similar_memories
    rw [List.length_take, hperm.length_eq]
  · intro d hd
    exact (mem_find_similar_memories hd).2
  · exact ((List.take_sublist _ _).subperm).trans hperm.subperm
  · have hsorted : ((raw.filter fun d => min_sim ≤ d.similarity).insertionSort
        fun a b => rankScore b ≤ rankScore a).Sorted
        fun a b => rankScore b ≤ rankScore a :=
      List.sorted_insertionSort _ _
    have htake : (find_similar_memories top_n min_sim raw).Sorted
        fun a b => rankScore b ≤ rankScore a :=
      hsorted.sublist (List.take_sublist _ _)
    refine List.Pairwise.imp_of_mem ?_ htake
    intro a b ha hb hab
    have hEa := hE a (mem_find_similar_memories ha).1
    have hEb := hE b (mem_find_similar_memories hb).1
    have hcast : ((rankScore b : ℚ) : ℝ) ≤ ((rankScore a : ℚ) : ℝ) := by exact_mod_cast hab
    unfold rankScore at hcast
    push_cast at hcast
    rw [hEa, hEb] at hcast
    exact hcast

/-- Witness for C4 on a one-candidate store response. -/
theorem find_similar_memories_contract_witness :
    (find_similar_request "u" 3).limit = 3 * 2 ∧
    (find_similar_memories 3 (3/4) [demoDoc]).length
      = min 3 ([demoDoc].filter fun d => (3/4 : ℚ) ≤ d.similarity).length ∧
    (∀ d ∈ find_similar_memories 3 (3/4) [demoDoc], (3/4 : ℚ) ≤ d.similarity) ∧
    (find_similar_memories 3 (3/4) [demoDoc]).Subperm
      ([demoDoc].filter fun d => (3/4 : ℚ) ≤ d.similarity) ∧
    (find_similar_memories 3 (3/4) [demoDoc]).Sorted
      (fun a b => project_effective_importance b.importance b.access_count * (b.similarity : ℝ)
        ≤ project_effective_importance a.importance a.access_count * (a.similarity : ℝ)) := by
  refine find_similar_memories_contract "u" 3 (3/4) [demoDoc] ?_
  intro d hd
  rcases List.mem_singleton.1 hd with rfl
  norm_num [demoDoc, project_effective_importance, Real.log_one]

theorem update_one_length (id : Nat) (f : MemoryNode → MemoryNode) (s : List MemoryNode) :
    (update_one id f s).length = s.length := by
  induction s with
  | nil => rfl
  | cons a rest ih => by_cases h : a.id = id <;> simp [update_one, h, ih]

theorem update_one_map {β : Type} (id : Nat) (f : MemoryNode → MemoryNode)
    (g : MemoryNode → β) (hf : ∀ n, g (f n) = g n) (s : List MemoryNode) :
    (update_one id f s).map g = s.map g := by
  induction s with
  | nil => rfl
  | cons a rest ih => by_cases h : a.id = id <;> simp [update_one, h, ih, hf]

theorem mem_update_one {id : Nat} {f : MemoryNode → MemoryNode} {s : List MemoryNode}
    {m : MemoryNode} (hm : m ∈ update_one id f s) :
    m ∈ s ∨ ∃ n, n ∈ s ∧ n.id = id ∧ m = f n := by
  induction s with
  | nil => simp [update_one] at hm
  | cons a rest ih =>
    by_cases h : a.id = id
    · simp only [update_one, if_pos h] at hm
      rcases List.mem_cons.1 hm with h1 | h1
      · exact Or.inr ⟨a, List.mem_cons_self a rest, h, h1⟩
      · exact Or.inl (List.mem_cons_of_mem _ h1)
    · simp only [update_one, if_neg h] at hm
      rcases List.mem_cons.1 hm with h1 | h1
      · exact Or.inl (h1 ▸ List.mem_cons_self a rest)
      · rcases ih h1 with h2 | ⟨n, hn, hnid, hmf⟩
        · exact Or.inl (List.mem_cons_of_mem _ h2)
        · exact Or.inr ⟨n, List.mem_cons_of_mem _ hn, hnid, hmf⟩

theorem update_one_mem_of_id {id : Nat} {f : MemoryNode → MemoryNode}
    {s : List MemoryNode} {n : MemoryNode}
    (hnodup : (s.map MemoryNode.id).Nodup) (hn : n ∈ s) (hid : n.id = id) :
    f n ∈ update_one id f s := by
  induction s with
  | nil => cases hn
  | cons a rest ih =>
    rw [List.map_cons, List.nodup_cons] at hnodup
    rcases List.mem_cons.1 hn with rfl | hmem
    · simp only [update_one, if_pos hid]
      exact List.mem_cons_self _ _
    · by_cases h : a.id = id
      · exact absurd ((h.trans hid.symm) ▸ List.mem_map_of_mem MemoryNode.id hmem)
          hnodup.1
      · simp only [update_one, if_neg h]
        exact List.mem_cons_of_mem _ (ih hnodup.2 hmem)

/-- The reinforce branch of `remember_content` in closed form: with a first
candidate above 0.85, the call returns the reinforcement acknowledgement and the
single `update_one` on that candidate's id. -/
theorem remember_content_reinforce_eq (R D simT : ℚ) (maxDepth : Nat)
    (o : RememberOracle) (req : RememberRequest) (store : List MemoryNode)
    (memory : SearchDoc)
    (hne : ¬ pyStrip req.content = "")
    (hfind : (find_similar_memories 3 (3/4) o.raw1).find?
        (fun m => (17/20 : ℚ) < m.similarity) = some memory) :
    remember_content R D simT maxDepth o req store
      = (RememberResult.reinforced "Reinforced existing memory" memory.id,
         update_one memory.id (reinforce_set R memory o.now) store) := by
  simp only [remember_content, if_neg hne, hfind]

/-- C2: when the first similarity query has a candidate above 0.85, exactly one node
— the first qualifying candidate in ranked order — is reinforced: its access_count
is incremented by 1, its importance multiplied by `REINFORCEMENT_FACTOR`, its
last_accessed set to now, and the call returns immediately with no insertion and no
other write. -/
theorem remember_content_reinforce_branch (R D simT : ℚ) (maxDepth : Nat)
    (o : RememberOracle) (req : RememberRequest) (store : List MemoryNode)
    (memory : SearchDoc) (n : MemoryNode)
    (hne : ¬ pyStrip req.content = "")
    (hfind : (find_similar_memories 3 (3/4) o.raw1).find?
        (fun m => (17/20 : ℚ) < m.similarity) = some memory)
    (hn : n ∈ store) (hid : n.id = memory.id)
    (himp : n.importance = memory.importance) (hac : n.access_count = memory.access_count)
    (hnodup : (store.map MemoryNode.id).Nodup) :
    (remember_content R D simT maxDepth o req store).1
      = RememberResult.reinforced "Reinforced existing memory" memory.id ∧
    (remember_content R D simT maxDepth o req store).2
      = update_one memory.id (reinforce_set R memory o.now) store ∧
    (remember_content R D simT maxDepth o req store).2.length = store.length ∧
    (∀ m ∈ (remember_content R D simT maxDepth o req store).2,
        m.id ≠ memory.id → m ∈ store) ∧
    (∃ m ∈ (remember_content R D simT maxDepth o req store).2,
        m.id = n.id ∧ m.importance = n.importance * R
          ∧ m.access_count = n.access_count + 1 ∧ m.last_accessed = o.now) ∧
    ((17/20 : ℚ) < memory.similarity) ∧
    memory ∈ find_similar_memories 3 (3/4) o.raw1 ∧
    (∃ pre post, find_similar_memories 3 (3/4) o.raw1 = pre ++ memory :: post
      ∧ ∀ m ∈ pre, ¬ (17/20 : ℚ) < m.similarity) := by
  have hstep := remember_content_reinforce_eq R D simT maxDepth o req store memory hne hfind
  obtain ⟨hp, as, bs, hsplit, hprev⟩ := List.find?_eq_some.1 hfind
  refine ⟨by rw [hstep], by rw [hstep], ?_, ?_, ?_, ?_, ?_, ?_⟩
  · rw [hstep]
    exact update_one_length _ _ _
  · rw [hstep]
    intro m hm hne'
    rcases mem_update_one hm with h | ⟨n', _, hnid', rfl⟩
    · exact h
    · exact absurd hnid' hne'
  · rw [hstep]
    refine ⟨_, update_one_mem_of_id hnodup hn hid, rfl, ?_, ?_, rfl⟩
    · show memory.importance * R = n.importance * R
      rw [himp]
    · show memory.access_count + 1 = n.access_count + 1
      rw [hac]
  · exact of_decide_eq_true hp
  · rw [hsplit]
    exact List.mem_append_right _ (List.mem_cons_self _ _)
  · exact ⟨as, bs, hsplit, fun a ha => by simpa using hprev a ha⟩

/-- Witness for C2 on a one-node store whose single candidate has similarity 0.9:
the call reinforces node 7 and keeps the store at one node. -/
theorem remember_content_reinforce_branch_witness :
    (remember_content (6/5) (1/2) (3/4) 10 demoOracle
        { user_id := "u", content := "hello" } [demoNode]).1
      = RememberResult.reinforced "Reinforced existing memory" demoHighDoc.id ∧
    (remember_content (6/5) (1/2) (3/4) 10 demoOracle
        { user_id := "u", content := "hello" } [demoNode]).2.length = [demoNode].length ∧
    (∃ m ∈ (remember_content (6/5) (1/2) (3/4) 10 demoOracle
        { user_id := "u", content := "hello" } [demoNode]).2,
      m.id = demoNode.id ∧ m.importance = demoNode.importance * (6/5)
        ∧ m.access_count = demoNode.access_count + 1 ∧ m.last_accessed = demoOracle.now) := by
  have h := remember_content_reinforce_branch (6/5) (1/2) (3/4) 10 demoOracle
    { user_id := "u", content := "hello" } [demoNode] demoHighDoc demoNode
    (by decide)
    (by norm_num [find_similar_memories, demoOracle, demoHighDoc, List.filter_cons,
      List.insertionSort, List.orderedInsert, List.find?])
    (List.mem_singleton.2 rfl) rfl rfl rfl (by simp)
  exact ⟨h.1, h.2.2.1, h.2.2.2.2.1⟩

/-- C10: the reinforce branch writes only `importance`, `access_count` and
`last_accessed` on the reinforced node; every node's id, user_id, content, summary,
embeddings and creation timestamp are unchanged, no node is inserted or deleted, and
every node other than the reinforced one is untouched. -/
theorem remember_content_reinforce_frame (R D simT : ℚ) (maxDepth : Nat)
    (o : RememberOracle) (req : RememberRequest) (store : List MemoryNode)
    (memory : SearchDoc)
    (hne : ¬ pyStrip req.content = "")
    (hfind : (find_similar_memories 3 (3/4) o.raw1).find?
        (fun m => (17/20 : ℚ) < m.similarity) = some memory) :
    (remember_content R D simT maxDepth o req store).2.map MemoryNode.id
      = store.map MemoryNode.id ∧
    (remember_content R D simT maxDepth o req store).2.map MemoryNode.user_id
      = store.map MemoryNode.user_id ∧
    (remember_content R D simT maxDepth o req store).2.map MemoryNode.content
      = store.map MemoryNode.content ∧
    (remember_content R D simT maxDepth o req store).2.map MemoryNode.summary
      = store.map MemoryNode.summary ∧
    (remember_content R D simT maxDepth o req store).2.map MemoryNode.embeddings
      = store.map MemoryNode.embeddings ∧
    (remember_content R D simT maxDepth o req store).2.map MemoryNode.timestamp
      = store.map MemoryNode.timestamp ∧
    (remember_content R D simT maxDepth o req store).2.length = store.length ∧
    (∀ m ∈ (remember_content R D simT maxDepth o req store).2,
        m.id ≠ memory.id → m ∈ store) := by
  have hstep := remember_content_reinforce_eq R D simT maxDepth o req store memory hne hfind
  have h2 : (remember_content R D simT maxDepth o req store).2
      = update_one memory.id (reinforce_set R memory o.now) store := by rw [hstep]
  rw [h2]
  refine ⟨update_one_map memory.id (reinforce_set R memory o.now) MemoryNode.id
      (fun n => rfl) store,
    update_one_map memory.id (reinforce_set R memory o.now) MemoryNode.user_id
      (fun n => rfl) store,
    update_one_map memory.id (reinforce_set R memory o.now) MemoryNode.content
      (fun n => rfl) store,
    update_one_map memory.id (reinforce_set R memory o.now) MemoryNode.summary
      (fun n => rfl) store,
    update_one_map memory.id (reinforce_set R memory o.now) MemoryNode.embeddings
      (fun n => rfl) store,
    update_one_map memory.id (reinforce_set R memory o.now) MemoryNode.timestamp
      (fun n => rfl) store,
    update_one_length _ _ _, ?_⟩
  intro m hm hne'
  rcases mem_update_one hm with h | ⟨n', _, hnid', rfl⟩
  · exact h
  · exact absurd hnid' hne'

/-- Witness for C10 on the same one-node store: ids, user ids, contents, summaries,
embeddings and timestamps are all preserved by the reinforcing call. -/
theorem remember_content_reinforce_frame_witness :
    (remember_content (6/5) (1/2) (3/4) 10 demoOracle
        { user_id := "u", content := "hello" } [demoNode]).2.map MemoryNode.content
      = [demoNode].map MemoryNode.content ∧
    (remember_content (6/5) (1/2) (3/4) 10 demoOracle
        { user_id := "u", content := "hello" } [demoNode]).2.map MemoryNode.embeddings
      = [demoNode].map MemoryNode.embeddings ∧
    (remember_content (6/5) (1/2) (3/4) 10 demoOracle
        { user_id := "u", content := "hello" } [demoNode]).2.length = 1 := by
  have h := remember_content_reinforce_frame (6/5) (1/2) (3/4) 10 demoOracle
    { user_id := "u", content := "hello" } [demoNode] demoHighDoc
    (by decide)
    (by norm_num [find_similar_memories, demoOracle, demoHighDoc, List.filter_cons,
      List.insertionSort, List.orderedInsert, List.find?])
  exact ⟨h.2.2.1, h.2.2.2.2.1, h.2.2.2.2.2.2.1⟩

theorem mem_delete_one_of_ne {id : Nat} {s : List MemoryNode} {m : MemoryNode}
    (hm : m ∈ s) (hne : m.id ≠ id) : m ∈ delete_one id s := by
  induction s with
  | nil => cases hm
  | cons a rest ih =>
    by_cases h : a.id = id
    · simp only [delete_one, if_pos h]
      rcases List.mem_cons.1 hm with rfl | hmem
      · exact absurd h hne
      · exact hmem
    · simp only [delete_one, if_neg h]
      rcases List.mem_cons.1 hm with rfl | hmem
      · exact List.mem_cons_self _ _
      · exact List.mem_cons_of_mem _ (ih hmem)

theorem delete_one_id_not_mem {id : Nat} {s : List MemoryNode}
    (hnodup : (s.map MemoryNode.id).Nodup) : ∀ m ∈ delete_one id s, m.id ≠ id := by
  induction s with
  | nil => intro m hm; cases hm
  | cons a rest ih =>
    rw [List.map_cons, List.nodup_cons] at hnodup
    by_cases h : a.id = id
    · simp only [delete_one, if_pos h]
      intro m hm heq
      exact hnodup.1 ((h.trans heq.symm) ▸ List.mem_map_of_mem MemoryNode.id hm)
    · simp only [delete_one, if_neg h]
      intro m hm
      rcases List.mem_cons.1 hm with rfl | hmem
      · exact h
      · exact ih hnodup.2 m hmem

theorem mem_update_one_of_ne {id : Nat} {f : MemoryNode → MemoryNode}
    {s : List MemoryNode} {n : MemoryNode} (hn : n ∈ s) (hne : n.id ≠ id) :
    n ∈ update_one id f s := by
  induction s with
  | nil => cases hn
  | cons a rest ih =>
    by_cases h : a.id = id
    · simp only [update_one, if_pos h]
      rcases List.mem_cons.1 hn with rfl | hmem
      · exact absurd h hne
      · exact List.mem_cons_of_mem _ hmem
    · simp only [update_one, if_neg h]
      rcases List.mem_cons.1 hn with rfl | hmem
      · exact List.mem_cons_self _ _
      · exact List.mem_cons_of_mem _ (ih hmem)

/-- C3 counterexample: the merge write is NOT clamped to 1.0 — with both importances
at 1.0 the merged node's id 5 receives importance `max(1,1) * 1.1 = 1.1 > 1.0`. -/
theorem merge_pass_no_clamp_cex :
    ∃ m ∈ merge_pass demoMergeOracle demoNewNode 5 [1] [demoMergeDoc]
        [demoOldNode, demoNewNode],
      m.id = 5 ∧ m.importance = 11/10 ∧ ¬ m.importance ≤ 1 := by
  have hstep : merge_pass demoMergeOracle demoNewNode 5 [1] [demoMergeDoc]
      [demoOldNode, demoNewNode]
      = [merge_update demoMergeOracle demoNewNode demoMergeDoc [1] demoNewNode] := by
    simp only [merge_pass]
    rw [if_pos (by norm_num [demoMergeDoc])]
    norm_num [update_one, delete_one, merge_update, demoOldNode, demoNewNode, demoMergeDoc]
  rw [hstep]
  refine ⟨merge_update demoMergeOracle demoNewNode demoMergeDoc [1] demoNewNode,
    List.mem_singleton.2 rfl, rfl, ?_, ?_⟩
  · show max demoNewNode.importance demoMergeDoc.importance * (11/10) = 11/10
    norm_num [demoNewNode, demoMergeDoc]
  · show ¬ max demoNewNode.importance demoMergeDoc.importance * (11/10) ≤ 1
    norm_num [demoNewNode, demoMergeDoc]

/-- C3 (amended): the first candidate with a distinct id and similarity strictly
between 0.70 and 0.85 is merged onto the new node's id — combined content,
regenerated summary, `importance = max(both) * 1.1` with NO clamp (the value may
exceed 1.0), `access_count = sum(both)`, element-wise averaged embedding — the
merged-away document is deleted, and no other candidate or node is touched. -/
theorem merge_pass_first_qualifying (o : RememberOracle) (new_memory : MemoryNode)
    (memory_id : Nat) (embeddings : List ℚ) (pre post : List SearchDoc)
    (memory : SearchDoc) (store : List MemoryNode) (newnode : MemoryNode)
    (hpre : ∀ m ∈ pre, ¬ (m.id ≠ memory_id ∧ (7/10 : ℚ) < m.similarity
        ∧ m.similarity < 17/20))
    (hq : memory.id ≠ memory_id ∧ (7/10 : ℚ) < memory.similarity
        ∧ memory.similarity < 17/20)
    (hnodup : (store.map MemoryNode.id).Nodup)
    (hnew : newnode ∈ store) (hnewid : newnode.id = memory_id) :
    merge_pass o new_memory memory_id embeddings (pre ++ memory :: post) store
      = delete_one memory.id
          (update_one memory_id (merge_update o new_memory memory embeddings) store) ∧
    (∃ m ∈ merge_pass o new_memory memory_id embeddings (pre ++ memory :: post) store,
        m.id = memory_id
        ∧ m.importance = max new_memory.importance memory.importance * (11/10)
        ∧ m.access_count = new_memory.access_count + memory.access_count
        ∧ m.embeddings = avg2 embeddings memory.embeddings
        ∧ m.content = merged_content o new_memory memory
        ∧ m.summary = merged_summary o new_memory memory) ∧
    (∀ m ∈ merge_pass o new_memory memory_id embeddings (pre ++ memory :: post) store,
        m.id ≠ memory.id) ∧
    (∀ n ∈ store, n.id ≠ memory_id → n.id ≠ memory.id →
        n ∈ merge_pass o new_memory memory_id embeddings (pre ++ memory :: post) store) := by
  have hstep : ∀ pre' : List SearchDoc,
      (∀ m ∈ pre', ¬ (m.id ≠ memory_id ∧ (7/10 : ℚ) < m.similarity
        ∧ m.similarity < 17/20)) →
      merge_pass o new_memory memory_id embeddings (pre' ++ memory :: post) store
        = delete_one memory.id
            (update_one memory_id (merge_update o new_memory memory embeddings) store) := by
    intro pre'
    induction pre' with
    | nil =>
      intro _
      simp only [List.nil_append, merge_pass]
      rw [if_pos hq]
    | cons a rest ih =>
      intro hpre'
      simp only [List.cons_append, merge_pass]
      rw [if_neg (hpre' a (List.mem_cons_self a rest))]
      exact ih fun m hm => hpre' m (List.mem_cons_of_mem _ hm)
  have heq := hstep pre hpre
  have hidmap : (update_one memory_id (merge_update o new_memory memory embeddings)
      store).map MemoryNode.id = store.map MemoryNode.id :=
    update_one_map memory_id (merge_update o new_memory memory embeddings)
      MemoryNode.id (fun n => rfl) store
  refine ⟨heq, ?_, ?_, ?_⟩
  · rw [heq]
    refine ⟨merge_update o new_memory memory embeddings newnode, ?_, hnewid, rfl, rfl, rfl,
      rfl, rfl⟩
    refine mem_delete_one_of_ne (update_one_mem_of_id hnodup hnew hnewid) ?_
    show newnode.id ≠ memory.id
    rw [hnewid]
    exact fun h => hq.1 h.symm
  · rw [heq]
    exact delete_one_id_not_mem (hidmap ▸ hnodup)
  · intro n hn h1 h2
    rw [heq]
    exact mem_delete_one_of_ne (mem_update_one_of_ne hn h1) h2

/-- Witness for the amended C3: merging the 0.78-similarity candidate onto node 5
combines the counts, averages the embeddings and multiplies the larger importance by
1.1. -/
theorem merge_pass_first_qualifying_witness :
    ∃ m ∈ merge_pass demoMergeOracle demoNewNode 5 [1] [demoMergeDoc]
        [demoOldNode, demoNewNode],
      m.id = 5
      ∧ m.importance = max demoNewNode.importance demoMergeDoc.importance * (11/10)
      ∧ m.access_count = demoNewNode.access_count + demoMergeDoc.access_count
      ∧ m.embeddings = avg2 [1] demoMergeDoc.embeddings
      ∧ m.content = merged_content demoMergeOracle demoNewNode demoMergeDoc
      ∧ m.summary = merged_summary demoMergeOracle demoNewNode demoMergeDoc :=
  (merge_pass_first_qualifying demoMergeOracle demoNewNode 5 [1] [] [] demoMergeDoc
    [demoOldNode, demoNewNode] demoNewNode (by simp)
    (by norm_num [demoMergeDoc]) (by decide)
    (List.mem_cons_of_mem _ (List.mem_singleton.2 rfl)) rfl).2.1

theorem merge_pass_no_qualifying (o : RememberOracle) (new_memory : MemoryNode)
    (memory_id : Nat) (embeddings : List ℚ) (sims : List SearchDoc)
    (store : List MemoryNode)
    (h : ∀ m ∈ sims, ¬ (m.id ≠ memory_id ∧ (7/10 : ℚ) < m.similarity
        ∧ m.similarity < 17/20)) :
    merge_pass o new_memory memory_id embeddings sims store = store := by
  induction sims with
  | nil => rfl
  | cons a rest ih =>
    simp only [merge_pass]
    rw [if_neg (h a (List.mem_cons_self a rest))]
    exact ih fun m hm => h m (List.mem_cons_of_mem _ hm)

theorem prune_memories_le (maxDepth : Nat) (user_id : String) (store : List MemoryNode)
    (h : (store.filter fun n => n.user_id = user_id).length ≤ maxDepth) :
    prune_memories maxDepth user_id store = store := by
  simp only [prune_memories]
  rw [if_neg (not_lt.2 h)]

theorem cosine_one : cosine_similarity [1] [1] = 1 := by
  norm_num [cosine_similarity, dot, Real.sqrt_one]

theorem cosine_zero : cosine_similarity [1] [0] = 0 := by
  norm_num [cosine_similarity, dot]

section ClassicalProofs

open Classical

theorem remember_content_create_eq (R D simT : ℚ) (maxDepth : Nat) (o : RememberOracle)
    (req : RememberRequest) (store : List MemoryNode)
    (hne : ¬ pyStrip req.content = "")
    (hnone : (find_similar_memories 3 (3/4) o.raw1).find?
        (fun m => (17/20 : ℚ) < m.similarity) = none) :
    remember_content R D simT maxDepth o req store
      = (RememberResult.created ("Remembered: " ++ (created_node o req).summary) o.new_id
          (created_node o req).importance,
         prune_memories maxDepth (pyLower req.user_id)
           (update_importance R D simT (pyLower req.user_id) o.embeddings
             (merge_pass o (created_node o req) o.new_id o.embeddings
               (find_similar_memories 3 (3/4) o.raw2) (store ++ [created_node o req])))) := by
  simp only [remember_content, if_neg hne, hnone]

theorem filter_length_map (f : MemoryNode → MemoryNode)
    (hf : ∀ n, (f n).user_id = n.user_id) (u : String) (s : List MemoryNode) :
    ((s.map f).filter fun n => n.user_id = u).length
      = (s.filter fun n => n.user_id = u).length := by
  induction s with
  | nil => rfl
  | cons a rest ih =>
    simp only [List.map_cons, List.filter_cons, hf]
    by_cases h : a.user_id = u
    · simp [h, ih]
    · simp [h, ih]

theorem update_importance_user_count (R D simT : ℚ) (u : String) (e : List ℚ)
    (store : List MemoryNode) :
    ((update_importance R D simT u e store).filter fun n => n.user_id = u).length
      = (store.filter fun n => n.user_id = u).length := by
  simp only [update_importance]
  refine filter_length_map _ (fun n => ?_) u store
  by_cases h1 : n.user_id = u
  · by_cases h2 : (simT : ℝ) < cosine_similarity e n.embeddings
    · simp [h1, h2]
    · simp [h1, h2]
  · simp [h1]

theorem update_importance_spec (R D simT : ℚ) (u : String) (e : List ℚ)
    (store : List MemoryNode) :
    (update_importance R D simT u e store).length = store.length ∧
    ∀ n ∈ store, n.user_id = u →
      ((simT : ℝ) < cosine_similarity e n.embeddings →
        { n with importance := n.importance * R, access_count := n.access_count + 1 }
          ∈ update_importance R D simT u e store) ∧
      (¬ (simT : ℝ) < cosine_similarity e n.embeddings →
        { n with importance := n.importance * D }
          ∈ update_importance R D simT u e store) := by
  constructor
  · simp [update_importance]
  · intro n hn hu
    constructor
    · intro hsim
      simp only [update_importance]
      refine List.mem_map.2 ⟨n, hn, ?_⟩
      simp [hu, hsim]
    · intro hsim
      simp only [update_importance]
      refine List.mem_map.2 ⟨n, hn, ?_⟩
      simp [hu, hsim]

end ClassicalProofs

/-- C1 counterexample: with spec-conforming constants (`R = 1.2 > 1`, `D = 0.5 < 1`)
a single "remember" call drives importance out of [0.1, 1.0] on both sides: the node
at the cap is reinforced to 1.2 and the orthogonal node at the floor decays to 0.05
— no clamping is applied to either update. -/
theorem remember_importance_no_clamp_cex :
    (∃ m ∈ (remember_content (6/5) (1/2) (3/4) 10 plainOracle
        { user_id := "u", content := "hello" } [capNode, decayNode]).2,
      m.importance = 6/5 ∧ ¬ m.importance ≤ 1) ∧
    (∃ m ∈ (remember_content (6/5) (1/2) (3/4) 10 plainOracle
        { user_id := "u", content := "hello" } [capNode, decayNode]).2,
      m.importance = 1/20 ∧ m.importance < 1/10) := by
  have h2 : (remember_content (6/5) (1/2) (3/4) 10 plainOracle
      { user_id := "u", content := "hello" } [capNode, decayNode]).2
      = update_importance (6/5) (1/2) (3/4) (pyLower "u") plainOracle.embeddings
          ([capNode, decayNode]
            ++ [created_node plainOracle { user_id := "u", content := "hello" }]) := by
    rw [remember_content_create_eq (6/5) (1/2) (3/4) 10 plainOracle
      { user_id := "u", content := "hello" } [capNode, decayNode] (by decide) rfl]
    show prune_memories 10 (pyLower "u") (update_importance (6/5) (1/2) (3/4)
        (pyLower "u") plainOracle.embeddings _) = _
    rw [prune_memories_le]
    · rfl
    · rw [update_importance_user_count]
      decide
  rw [h2]
  have hspec := (update_importance_spec (6/5) (1/2) (3/4) (pyLower "u")
    plainOracle.embeddings
    ([capNode, decayNode]
      ++ [created_node plainOracle { user_id := "u", content := "hello" }])).2
  constructor
  · have hmem := (hspec capNode (List.mem_append_left _ (List.mem_cons_self _ _)) rfl).1
      (by
        show ((3/4 : ℚ) : ℝ) < cosine_similarity [1] [1]
        rw [cosine_one]
        norm_num)
    exact ⟨_, hmem, by norm_num [capNode], by norm_num [capNode]⟩
  · have hmem := (hspec decayNode
      (List.mem_append_left _ (List.mem_cons_of_mem _ (List.mem_cons_self _ _))) rfl).2
      (by
        show ¬ ((3/4 : ℚ) : ℝ) < cosine_similarity [1] [0]
        rw [cosine_zero]
        norm_num)
    exact ⟨_, hmem, by norm_num [decayNode], by norm_num [decayNode]⟩

/-- C1 (amended): no clamping to [0.1, 1.0] is applied to any reinforcement or decay
update of a "remember" call.  The reinforce branch writes exactly
`importance * REINFORCEMENT_FACTOR`; in the create path the global pass writes
exactly `importance * REINFORCEMENT_FACTOR` (with access_count + 1) for every user
node above the similarity threshold and exactly `importance * DECAY_FACTOR` for
every other user node, so importance may exceed 1.0 or fall below 0.1. -/
theorem remember_importance_updates_unclamped (R D simT : ℚ) (maxDepth : Nat)
    (o : RememberOracle) (req : RememberRequest) (store : List MemoryNode)
    (hne : ¬ pyStrip req.content = "") :
    (∀ memory : SearchDoc, (find_similar_memories 3 (3/4) o.raw1).find?
          (fun m => (17/20 : ℚ) < m.similarity) = some memory →
        (remember_content R D simT maxDepth o req store).2
          = update_one memory.id (reinforce_set R memory o.now) store) ∧
    ((find_similar_memories 3 (3/4) o.raw1).find?
          (fun m => (17/20 : ℚ) < m.similarity) = none →
      (∀ m ∈ find_similar_memories 3 (3/4) o.raw2,
          ¬ (m.id ≠ o.new_id ∧ (7/10 : ℚ) < m.similarity ∧ m.similarity < 17/20)) →
      ((store.filter fun n => n.user_id = pyLower req.user_id).length + 1 ≤ maxDepth) →
      ∀ n ∈ store ++ [created_node o req], n.user_id = pyLower req.user_id →
        ((simT : ℝ) < cosine_similarity o.embeddings n.embeddings →
          { n with importance := n.importance * R, access_count := n.access_count + 1 }
            ∈ (remember_content R D simT maxDepth o req store).2) ∧
        (¬ (simT : ℝ) < cosine_similarity o.embeddings n.embeddings →
          { n with importance := n.importance * D }
            ∈ (remember_content R D simT maxDepth o req store).2)) := by
  constructor
  · intro memory hfind
    rw [remember_content_reinforce_eq R D simT maxDepth o req store memory hne hfind]
  · intro hnone hnoq hdepth n hn hu
    have hmerge := merge_pass_no_qualifying o (created_node o req) o.new_id o.embeddings
      (find_similar_memories 3 (3/4) o.raw2) (store ++ [created_node o req]) hnoq
    have hcount : (((store ++ [created_node o req]).filter
        fun n => n.user_id = pyLower req.user_id).length)
        = (store.filter fun n => n.user_id = pyLower req.user_id).length + 1 := by
      rw [List.filter_append]
      simp [created_node]
    have h2 : (remember_content R D simT maxDepth o req store).2
        = update_importance R D simT (pyLower req.user_id) o.embeddings
            (store ++ [created_node o req]) := by
      rw [remember_content_create_eq R D simT maxDepth o req store hne hnone]
      show prune_memories maxDepth (pyLower req.user_id)
          (update_importance R D simT (pyLower req.user_id) o.embeddings
            (merge_pass o (created_node o req) o.new_id o.embeddings
              (find_similar_memories 3 (3/4) o.raw2) (store ++ [created_node o req]))) = _
      rw [hmerge, prune_memories_le]
      rw [update_importance_user_count, hcount]
      exact hdepth
    rw [h2]
    exact (update_importance_spec R D simT (pyLower req.user_id) o.embeddings
      (store ++ [created_node o req])).2 n hn hu

/-- Witness for the amended C1: the cap node's importance is multiplied by 1.2 with
no clamp during the create path's global pass. -/
theorem remember_importance_updates_unclamped_witness :
    { capNode with importance := capNode.importance * (6/5),
                   access_count := capNode.access_count + 1 }
      ∈ (remember_content (6/5) (1/2) (3/4) 10 plainOracle
          { user_id := "u", content := "hello" } [capNode, decayNode]).2 := by
  have h := remember_importance_updates_unclamped (6/5) (1/2) (3/4) 10 plainOracle
    { user_id := "u", content := "hello" } [capNode, decayNode] (by decide)
  refine (h.2 rfl ?_ ?_ capNode ?_ rfl).1 ?_
  · intro m hm
    exact absurd hm (List.not_mem_nil m)
  · decide
  · exact List.mem_append_left _ (List.mem_cons_self _ _)
  · show ((3/4 : ℚ) : ℝ) < cosine_similarity [1] [1]
    rw [cosine_one]
    norm_num
